import Mathlib

/-!
Verification development for the CAD2FEA-Optimizer repository.

Shallow embedding of two modules:

* src/stl_exporter.py — the authenticated STEP-export HTTP flow
  (create_session, fetch_step_content, export_step).  The HTTP session is
  modelled as a Transport giving the responses of the two possible GETs;
  fetch_step_content additionally returns the list of URLs it requested so
  that claims about the number of requests can be stated.

* src/stl_converter.py — the STL-to-VTK mesh conversion pipeline
  (create_2d_mesh, clean_mesh, tetrahedralize_mesh, save_mesh_to_vtk,
  stl_to_vtk).  The external libraries (trimesh, pymeshfix, tetgen, meshio)
  are modelled as an environment of fallible functions; each stage also
  returns the list of external calls it issued, so that claims about which
  routine is invoked with which arguments can be stated.

Python exceptions are modelled by the inductive PyError: RuntimeError with
an optional wrapped cause (raise ... from e), requests.HTTPError raised by
raise_for_status, and other requests.RequestException network failures.
-/

namespace CAD2FEA

/-! ## HTTP model for src/stl_exporter.py -/

/-- Python exception values relevant to the exporter: RuntimeError with an
optional cause attached by a raise-from, requests.HTTPError produced by
raise_for_status, and any other requests.RequestException. -/
inductive PyError where
  | runtimeError (msg : String) (cause : Option PyError)
  | httpError (status : Nat)
  | requestException (msg : String)
deriving Repr

/-- True exactly for exceptions caught by an except requests.RequestException
clause: HTTPError is a subclass of RequestException. -/
def isRequestException : PyError → Bool
  | PyError.httpError _ => true
  | PyError.requestException _ => true
  | PyError.runtimeError _ _ => false

/-- True exactly for RuntimeError values. -/
def isRuntimeError : PyError → Bool
  | PyError.runtimeError _ _ => true
  | _ => false

/-- True when the error is a RuntimeError carrying a wrapped cause. -/
def hasCause : PyError → Bool
  | PyError.runtimeError _ (some _) => true
  | _ => false

/-- True exactly for the normalized export failure the spec describes: the
RuntimeError with message "Failed to fetch STEP content." wrapping an
underlying cause. -/
def isExportFailureWrappingCause : PyError → Bool
  | PyError.runtimeError "Failed to fetch STEP content." (some _) => true
  | _ => false

/-- An HTTP response as seen by the exporter: status code, the optional
Location header, and the body bytes. -/
structure Response where
  status : Nat
  location : Option String
  body : List Nat
deriving DecidableEq, Repr

/-- Outcome of one session.get call: either a response, or a
requests.RequestException raised at the network level. -/
inductive GetResult where
  | success (r : Response)
  | failure (msg : String)
deriving DecidableEq, Repr

/-- The transport behind a session: the response to the initial GET of the
export endpoint (issued with allow_redirects disabled), and the response to
a follow-up GET as a function of the requested URL. -/
structure Transport where
  first : GetResult
  second : String → GetResult

/-- response.raise_for_status(): raises requests.HTTPError exactly for
status codes in 400..599. -/
def raiseForStatus (r : Response) : Except PyError Unit :=
  if 400 ≤ r.status ∧ r.status < 600 then Except.error (PyError.httpError r.status)
  else Except.ok ()

/-- The export endpoint URL built by fetch_step_content from the base URL
and the document, workspace and element identifiers. -/
def exportUrl (base_url document_id workspace_id element_id : String) : String :=
  base_url ++ "/partstudios/d/" ++ document_id ++ "/w/" ++ workspace_id ++
    "/e/" ++ element_id ++ "/export/step"

/-- The body of the try block of fetch_step_content: issue the initial GET,
require HTTP success, branch on 302/307, read the Location header (Python
truthiness: a missing or empty header is rejected), follow the redirect with
a second GET, require HTTP success again, and return its body.  The second
component records the URLs requested, in order. -/
def fetchTryBlock (t : Transport) (url : String) :
    Except PyError (List Nat) × List String :=
  match t.first with
  | GetResult.failure msg => (Except.error (PyError.requestException msg), [url])
  | GetResult.success response =>
    match raiseForStatus response with
    | Except.error e => (Except.error e, [url])
    | Except.ok _ =>
      if response.status = 302 ∨ response.status = 307 then
        match response.location with
        | none =>
            (Except.error (PyError.runtimeError
              "Redirect expected but \x27Location\x27 header is missing." none), [url])
        | some redirect_url =>
          if redirect_url = "" then
            (Except.error (PyError.runtimeError
              "Redirect expected but \x27Location\x27 header is missing." none), [url])
          else
            match t.second redirect_url with
            | GetResult.failure msg =>
                (Except.error (PyError.requestException msg), [url, redirect_url])
            | GetResult.success step_response =>
              match raiseForStatus step_response with
              | Except.error e => (Except.error e, [url, redirect_url])
              | Except.ok _ => (Except.ok step_response.body, [url, redirect_url])
      else
        (Except.error (PyError.runtimeError
          ("Unexpected response status code: " ++ toString response.status) none), [url])

/-- The except clause of fetch_step_content: a caught
requests.RequestException is replaced by RuntimeError
"Failed to fetch STEP content." wrapping it as the cause.  RuntimeErrors
raised inside the try block are not RequestExceptions, so they propagate
unchanged. -/
def wrapRequestErrors : Except PyError (List Nat) → Except PyError (List Nat)
  | Except.error e =>
      if isRequestException e then
        Except.error (PyError.runtimeError "Failed to fetch STEP content." (some e))
      else
        Except.error e
  | Except.ok b => Except.ok b

/-- fetch_step_content: run the try block and normalize its outcome through
the except clause. -/
def fetch_step_content (document_id workspace_id element_id : String)
    (session : Transport) (base_url : String) :
    Except PyError (List Nat) × List String :=
  let url := exportUrl base_url document_id workspace_id element_id
  let tb := fetchTryBlock session url
  (wrapRequestErrors tb.1, tb.2)

/-! ### Concrete transports used to instantiate the theorems -/

/-- Transport whose initial GET answers 302 with a Location header and whose
follow-up GET answers 200 with body bytes 66, 66. -/
def redirectOkTransport : Transport where
  first := GetResult.success { status := 302, location := some "http://x/payload", body := [] }
  second := fun _ => GetResult.success { status := 200, location := none, body := [66, 66] }

/-- Transport whose initial GET answers 302 without a Location header. -/
def noLocationTransport : Transport where
  first := GetResult.success { status := 302, location := none, body := [] }
  second := fun _ => GetResult.failure "unreachable"

/-- Transport whose initial GET answers 404. -/
def notFoundTransport : Transport where
  first := GetResult.success { status := 404, location := none, body := [] }
  second := fun _ => GetResult.failure "unreachable"

/-- Transport whose initial GET answers a plain 200 carrying a body. -/
def plainOkTransport : Transport where
  first := GetResult.success { status := 200, location := none, body := [7, 7, 7] }
  second := fun _ => GetResult.failure "unreachable"

/-! ## Mesh pipeline model for src/stl_converter.py -/

/-- Raw STL bytes. -/
abbrev Bytes := List Nat

/-- An Nx3 array of vertex coordinates. -/
abbrev Vertices := List (Rat × Rat × Rat)

/-- An Mx3 array of triangular face indices. -/
abbrev Faces := List (Nat × Nat × Nat)

/-- Points of a volumetric mesh. -/
abbrev Nodes := List (Rat × Rat × Rat)

/-- An Mx4 connectivity array of tetrahedra. -/
abbrev Elems := List (Nat × Nat × Nat × Nat)

/-- The open keyword-argument mapping forwarded to tgen.tetrahedralize. -/
abbrev TetgenOptions := List (String × Rat)

/-- The object returned by trimesh.load, of which create_2d_mesh reads the
vertices and faces attributes. -/
structure TrimeshMesh where
  vertices : Vertices
  faces : Faces
deriving DecidableEq, Repr

/-- The pymeshfix.MeshFix object after repair, of which clean_mesh reads the
v and f attributes. -/
structure MeshFixState where
  v : Vertices
  f : Faces
deriving DecidableEq, Repr

/-- The tetgen.TetGen object after tetrahedralization, of which
tetrahedralize_mesh reads the node and elem attributes. -/
structure TetGenState where
  node : Nodes
  elem : Elems
deriving DecidableEq, Repr

/-- A meshio.Mesh value: points plus a list of cell blocks, each block a
cell-type tag with its connectivity array. -/
structure MeshioMesh where
  points : Nodes
  cells : List (String × Elems)
deriving DecidableEq, Repr

/-- One invocation of an external library routine, with the exact arguments
the pipeline passed to it. -/
inductive ExtCall where
  | trimeshLoad (stl_data : Bytes) (file_type : String)
  | meshfixRepair (vertices : Vertices) (faces : Faces)
      (verbose joincomp remove_smallest_components : Bool)
  | tetgenTetrahedralize (vertices : Vertices) (faces : Faces) (opts : TetgenOptions)
  | meshioWrite (path : String) (mesh : MeshioMesh)
deriving DecidableEq, Repr

/-- The behaviour of the external libraries: what each routine returns (or
which exception it raises) for given arguments.  The pipeline under
verification is quantified over every such environment. -/
structure MeshEnv where
  trimesh_load : Bytes → String → Except PyError TrimeshMesh
  meshfix_repair : Vertices → Faces → Bool → Bool → Bool → Except PyError MeshFixState
  tetgen_tetrahedralize : Vertices → Faces → TetgenOptions → Except PyError TetGenState
  meshio_write : String → MeshioMesh → Except PyError Unit

/-- create_2d_mesh: load the STL bytes with trimesh (file_type stl) and
return the vertices and faces attributes of the loaded mesh, together with
the external call issued. -/
def create_2d_mesh (env : MeshEnv) (stl_data : Bytes) :
    Except PyError (Vertices × Faces) × List ExtCall :=
  match env.trimesh_load stl_data "stl" with
  | Except.error e => (Except.error e, [ExtCall.trimeshLoad stl_data "stl"])
  | Except.ok trimesh_mesh =>
      (Except.ok (trimesh_mesh.vertices, trimesh_mesh.faces),
       [ExtCall.trimeshLoad stl_data "stl"])

/-- clean_mesh: build a pymeshfix.MeshFix from the vertices and faces, call
repair with verbose enabled, joincomp enabled and remove_smallest_components
disabled, and return the repaired v and f attributes. -/
def clean_mesh (env : MeshEnv) (vertices : Vertices) (faces : Faces) :
    Except PyError (Vertices × Faces) × List ExtCall :=
  match env.meshfix_repair vertices faces true true false with
  | Except.error e =>
      (Except.error e, [ExtCall.meshfixRepair vertices faces true true false])
  | Except.ok meshfix =>
      (Except.ok (meshfix.v, meshfix.f),
       [ExtCall.meshfixRepair vertices faces true true false])

/-- tetrahedralize_mesh: replace an absent (or empty, by Python truthiness)
option mapping by the empty mapping, call tgen.tetrahedralize with the
options expanded as keyword arguments, and return the node and elem
attributes. -/
def tetrahedralize_mesh (env : MeshEnv) (vertices : Vertices) (faces : Faces)
    (tetgen_options : Option TetgenOptions) :
    Except PyError (Nodes × Elems) × List ExtCall :=
  let opts := tetgen_options.getD []
  match env.tetgen_tetrahedralize vertices faces opts with
  | Except.error e =>
      (Except.error e, [ExtCall.tetgenTetrahedralize vertices faces opts])
  | Except.ok tgen =>
      (Except.ok (tgen.node, tgen.elem),
       [ExtCall.tetgenTetrahedralize vertices faces opts])

/-- save_mesh_to_vtk: build a meshio.Mesh whose points are the nodes and
whose single cell block is the tetra-tagged cell array, and write it to the
given path. -/
def save_mesh_to_vtk (env : MeshEnv) (nodes : Nodes) (cells : Elems) (path : String) :
    Except PyError Unit × List ExtCall :=
  let mesh : MeshioMesh := { points := nodes, cells := [("tetra", cells)] }
  (env.meshio_write path mesh, [ExtCall.meshioWrite path mesh])

/-- stl_to_vtk: the complete pipeline, running the four stages in sequence
and stopping at the first raised exception.  The second component
concatenates the external calls issued before control returned. -/
def stl_to_vtk (env : MeshEnv) (stl_data : Bytes) (output_path : String)
    (tetgen_options : Option TetgenOptions) :
    Except PyError Unit × List ExtCall :=
  match create_2d_mesh env stl_data with
  | (Except.error e, c1) => (Except.error e, c1)
  | (Except.ok (vertices, faces), c1) =>
    match clean_mesh env vertices faces with
    | (Except.error e, c2) => (Except.error e, c1 ++ c2)
    | (Except.ok (clean_vertices, clean_faces), c2) =>
      match tetrahedralize_mesh env clean_vertices clean_faces tetgen_options with
      | (Except.error e, c3) => (Except.error e, c1 ++ c2 ++ c3)
      | (Except.ok (nodes, cells), c3) =>
        match save_mesh_to_vtk env nodes cells output_path with
        | (r, c4) => (r, c1 ++ c2 ++ c3 ++ c4)

/-- Second definition for the refinement claim C5, written from the words of
the spec: the pipeline as the sequential composition of the four stage
functions, each stage fed exactly the previous stage output. -/
def stl_to_vtk_composed_spec (env : MeshEnv) (stl_data : Bytes) (output_path : String)
    (tetgen_options : Option TetgenOptions) : Except PyError Unit :=
  Except.bind (create_2d_mesh env stl_data).1 (fun vf =>
    Except.bind (clean_mesh env vf.1 vf.2).1 (fun cvf =>
      Except.bind (tetrahedralize_mesh env cvf.1 cvf.2 tetgen_options).1 (fun ne =>
        (save_mesh_to_vtk env ne.1 ne.2 output_path).1)))

/-- Environment whose STL parser raises while every later routine succeeds:
trimesh.load rejects the bytes, repair returns its input unchanged,
tetrahedralization returns an empty volumetric mesh and writing succeeds. -/
def loadFailEnv : MeshEnv where
  trimesh_load := fun _ _ => Except.error (PyError.runtimeError "not an STL" none)
  meshfix_repair := fun vertices faces _ _ _ => Except.ok { v := vertices, f := faces }
  tetgen_tetrahedralize := fun _ _ _ => Except.ok { node := [], elem := [] }
  meshio_write := fun _ _ => Except.ok ()

end CAD2FEA

namespace CAD2FEA

/-! ## Theorems about the export fetch -/

/-- C1: for every transport in which the initial GET to the export endpoint
returns status 302 with a Location header and the follow-up GET to that
location returns status 200 with body B, fetch_step_content returns
exactly B. -/
theorem fetch_follows_redirect_and_returns_body
    (t : Transport) (document_id workspace_id element_id base_url loc : String)
    (B : List Nat) (r1 r2 : Response)
    (h1 : t.first = GetResult.success r1) (h2 : r1.status = 302)
    (h3 : r1.location = some loc) (h4 : loc ≠ "")
    (h5 : t.second loc = GetResult.success r2) (h6 : r2.status = 200)
    (h7 : r2.body = B) :
    (fetch_step_content document_id workspace_id element_id t base_url).1
      = Except.ok B := by
  simp [fetch_step_content, wrapRequestErrors, fetchTryBlock, raiseForStatus, h1, h2, h3, h4, h5, h6, h7]

/-- Witness for C1: the concrete redirecting transport yields the payload
body bytes 66, 66. -/
theorem fetch_follows_redirect_and_returns_body_witness :
    (fetch_step_content "d" "w" "e" redirectOkTransport "http://base").1
      = Except.ok [66, 66] :=
  fetch_follows_redirect_and_returns_body redirectOkTransport "d" "w" "e"
    "http://base" "http://x/payload" [66, 66]
    { status := 302, location := some "http://x/payload", body := [] }
    { status := 200, location := none, body := [66, 66] }
    rfl rfl rfl (by decide) rfl rfl rfl

/-- C3: for every transport in which the initial GET returns status 302 or
307 without a Location header, fetch_step_content fails with the
redirect-expected-but-missing RuntimeError and issues no second request. -/
theorem fetch_missing_location_error_no_second_request
    (t : Transport) (document_id workspace_id element_id base_url : String)
    (r : Response)
    (h1 : t.first = GetResult.success r)
    (h2 : r.status = 302 ∨ r.status = 307)
    (h3 : r.location = none) :
    (fetch_step_content document_id workspace_id element_id t base_url).1
      = Except.error (PyError.runtimeError
          "Redirect expected but \x27Location\x27 header is missing." none)
    ∧ (fetch_step_content document_id workspace_id element_id t base_url).2
      = [exportUrl base_url document_id workspace_id element_id] := by
  rcases h2 with h2 | h2 <;>
    simp [fetch_step_content, wrapRequestErrors, fetchTryBlock, raiseForStatus, isRequestException,
      h1, h2, h3]

/-- Witness for C3: the concrete 302-without-Location transport fails with
the missing-redirect error after a single request. -/
theorem fetch_missing_location_error_no_second_request_witness :
    (fetch_step_content "d" "w" "e" noLocationTransport "b").1
      = Except.error (PyError.runtimeError
          "Redirect expected but \x27Location\x27 header is missing." none)
    ∧ (fetch_step_content "d" "w" "e" noLocationTransport "b").2
      = [exportUrl "b" "d" "w" "e"] :=
  fetch_missing_location_error_no_second_request noLocationTransport "d" "w" "e" "b"
    { status := 302, location := none, body := [] }
    rfl (Or.inl rfl) rfl

/-- C4: for every transport in which the initial GET returns a 4xx or 5xx
status, fetch_step_content fails with the export wrapper around the
HTTPError raised by raise_for_status, and issues no second request. -/
theorem fetch_http_error_no_second_request
    (t : Transport) (document_id workspace_id element_id base_url : String)
    (r : Response)
    (h1 : t.first = GetResult.success r)
    (h2 : 400 ≤ r.status) (h3 : r.status < 600) :
    (fetch_step_content document_id workspace_id element_id t base_url).1
      = Except.error (PyError.runtimeError "Failed to fetch STEP content."
          (some (PyError.httpError r.status)))
    ∧ (fetch_step_content document_id workspace_id element_id t base_url).2
      = [exportUrl base_url document_id workspace_id element_id] := by
  simp [fetch_step_content, wrapRequestErrors, fetchTryBlock, raiseForStatus, isRequestException,
    h1, h2, h3]

/-- Witness for C4: the concrete 404 transport fails with the wrapped
HTTPError after a single request. -/
theorem fetch_http_error_no_second_request_witness :
    (fetch_step_content "d" "w" "e" notFoundTransport "b").1
      = Except.error (PyError.runtimeError "Failed to fetch STEP content."
          (some (PyError.httpError 404)))
    ∧ (fetch_step_content "d" "w" "e" notFoundTransport "b").2
      = [exportUrl "b" "d" "w" "e"] :=
  fetch_http_error_no_second_request notFoundTransport "d" "w" "e" "b"
    { status := 404, location := none, body := [] }
    rfl (by decide) (by decide)

/-- C7: for every transport in which the initial GET returns a non-redirect
success status, fetch_step_content raises the unexpected-status RuntimeError
rather than returning the response body. -/
theorem fetch_plain_success_unexpected_status
    (t : Transport) (document_id workspace_id element_id base_url : String)
    (r : Response)
    (h1 : t.first = GetResult.success r) (h2 : r.status < 400)
    (h3 : r.status ≠ 302) (h4 : r.status ≠ 307) :
    (fetch_step_content document_id workspace_id element_id t base_url).1
      = Except.error (PyError.runtimeError
          ("Unexpected response status code: " ++ toString r.status) none)
    ∧ (fetch_step_content document_id workspace_id element_id t base_url).1
      ≠ Except.ok r.body := by
  have h2' : ¬ (400 ≤ r.status ∧ r.status < 600) := by omega
  have hmain : (fetch_step_content document_id workspace_id element_id t base_url).1
      = Except.error (PyError.runtimeError
          ("Unexpected response status code: " ++ toString r.status) none) := by
    simp [fetch_step_content, wrapRequestErrors, fetchTryBlock, raiseForStatus, isRequestException,
      h1, h2', h3, h4]
  refine ⟨hmain, ?_⟩
  rw [hmain]
  simp

/-- Witness for C7: the concrete plain-200 transport with body bytes
7, 7, 7 raises the unexpected-status error and does not return that body. -/
theorem fetch_plain_success_unexpected_status_witness :
    (fetch_step_content "d" "w" "e" plainOkTransport "b").1
      = Except.error (PyError.runtimeError
          ("Unexpected response status code: " ++ toString 200) none)
    ∧ (fetch_step_content "d" "w" "e" plainOkTransport "b").1
      ≠ Except.ok [7, 7, 7] :=
  fetch_plain_success_unexpected_status plainOkTransport "d" "w" "e" "b"
    { status := 200, location := none, body := [7, 7, 7] }
    rfl (by decide) (by decide) (by decide)

/-- raise_for_status can only raise the HTTPError of its own response
status. -/
theorem raiseForStatus_error_httpError (r : Response) (e : PyError)
    (h : raiseForStatus r = Except.error e) : e = PyError.httpError r.status := by
  unfold raiseForStatus at h
  split at h
  · simpa using h.symm
  · simp at h

/-- Every exception escaping the try block of fetch_step_content is either a
RequestException (network failure or HTTPError) or a RuntimeError without a
wrapped cause (missing redirect target, unexpected status). -/
theorem fetchTryBlock_error_shape (t : Transport) (url : String) (err : PyError)
    (h : (fetchTryBlock t url).1 = Except.error err) :
    isRequestException err = true
    ∨ (isRuntimeError err = true ∧ hasCause err = false) := by
  cases hf : t.first with
  | failure msg =>
      have hv : (fetchTryBlock t url).1 = Except.error (PyError.requestException msg) := by
        simp [fetchTryBlock, hf]
      rw [hv] at h
      obtain rfl : PyError.requestException msg = err := by simpa using h
      left; rfl
  | success response =>
      cases hrs : raiseForStatus response with
      | error e =>
          have hv : (fetchTryBlock t url).1 = Except.error e := by
            simp [fetchTryBlock, hf, hrs]
          rw [hv] at h
          obtain rfl : e = err := by simpa using h
          rw [raiseForStatus_error_httpError response e hrs]
          left; rfl
      | ok u =>
          by_cases hred : response.status = 302 ∨ response.status = 307
          · cases hloc : response.location with
            | none =>
                have hv : (fetchTryBlock t url).1 = Except.error (PyError.runtimeError
                    "Redirect expected but \x27Location\x27 header is missing." none) := by
                  rcases hred with h30 | h30 <;> simp [fetchTryBlock, hf, hrs, h30, hloc]
                rw [hv] at h
                obtain rfl : _ = err := by simpa using h
                right; exact ⟨rfl, rfl⟩
            | some redirect_url =>
                by_cases hemp : redirect_url = ""
                · have hv : (fetchTryBlock t url).1 = Except.error (PyError.runtimeError
                      "Redirect expected but \x27Location\x27 header is missing." none) := by
                    rcases hred with h30 | h30 <;>
                      simp [fetchTryBlock, hf, hrs, h30, hloc, hemp]
                  rw [hv] at h
                  obtain rfl : _ = err := by simpa using h
                  right; exact ⟨rfl, rfl⟩
                · cases hs : t.second redirect_url with
                  | failure msg =>
                      have hv : (fetchTryBlock t url).1
                          = Except.error (PyError.requestException msg) := by
                        rcases hred with h30 | h30 <;>
                          simp [fetchTryBlock, hf, hrs, h30, hloc, hemp, hs]
                      rw [hv] at h
                      obtain rfl : _ = err := by simpa using h
                      left; rfl
                  | success step_response =>
                      cases hrs2 : raiseForStatus step_response with
                      | error e2 =>
                          have hv : (fetchTryBlock t url).1 = Except.error e2 := by
                            rcases hred with h30 | h30 <;>
                              simp [fetchTryBlock, hf, hrs, h30, hloc, hemp, hs, hrs2]
                          rw [hv] at h
                          obtain rfl : e2 = err := by simpa using h
                          rw [raiseForStatus_error_httpError step_response e2 hrs2]
                          left; rfl
                      | ok u2 =>
                          have hv : (fetchTryBlock t url).1
                              = Except.ok step_response.body := by
                            rcases hred with h30 | h30 <;>
                              simp [fetchTryBlock, hf, hrs, h30, hloc, hemp, hs, hrs2]
                          rw [hv] at h
                          simp at h
          · have hv : (fetchTryBlock t url).1 = Except.error (PyError.runtimeError
                ("Unexpected response status code: " ++ toString response.status) none) := by
              simp [fetchTryBlock, hf, hrs, hred]
            rw [hv] at h
            obtain rfl : _ = err := by simpa using h
            right; exact ⟨rfl, rfl⟩

/-- C2 (amended): every failure of fetch_step_content surfaces as a
RuntimeError; every network or HTTP failure, that is every
RequestException escaping the try block, is normalized into exactly the
wrapper "Failed to fetch STEP content." carrying that exception as its
cause; and every other surfaced failure (the protocol-shape RuntimeErrors:
missing redirect target, unexpected status) carries no wrapped cause. -/
theorem fetch_failures_are_runtime_errors
    (t : Transport) (document_id workspace_id element_id base_url : String) :
    (∀ err, (fetch_step_content document_id workspace_id element_id t base_url).1
        = Except.error err → isRuntimeError err = true)
    ∧ (∀ cause,
        (fetchTryBlock t (exportUrl base_url document_id workspace_id element_id)).1
          = Except.error cause →
        isRequestException cause = true →
        (fetch_step_content document_id workspace_id element_id t base_url).1
          = Except.error (PyError.runtimeError "Failed to fetch STEP content."
              (some cause)))
    ∧ (∀ err, (fetch_step_content document_id workspace_id element_id t base_url).1
        = Except.error err →
        isExportFailureWrappingCause err = true ∨ hasCause err = false) := by
  have h0 : (fetch_step_content document_id workspace_id element_id t base_url).1
      = wrapRequestErrors
          (fetchTryBlock t (exportUrl base_url document_id workspace_id element_id)).1 :=
    rfl
  refine ⟨?_, ?_, ?_⟩
  · intro err h
    rw [h0] at h
    cases htb : (fetchTryBlock t (exportUrl base_url document_id workspace_id element_id)).1 with
    | error e =>
        rw [htb] at h
        rcases fetchTryBlock_error_shape t _ e htb with hreq | ⟨hrt, hnc⟩
        · simp [wrapRequestErrors, hreq] at h
          subst h
          rfl
        · have hnreq : isRequestException e = false := by
            cases e <;> simp_all [isRuntimeError, isRequestException]
          simp [wrapRequestErrors, hnreq] at h
          subst h
          exact hrt
    | ok b =>
        rw [htb] at h
        simp [wrapRequestErrors] at h
  · intro cause hc hreq
    rw [h0, hc]
    simp [wrapRequestErrors, hreq]
  · intro err h
    rw [h0] at h
    cases htb : (fetchTryBlock t (exportUrl base_url document_id workspace_id element_id)).1 with
    | error e =>
        rw [htb] at h
        rcases fetchTryBlock_error_shape t _ e htb with hreq | ⟨hrt, hnc⟩
        · simp [wrapRequestErrors, hreq] at h
          subst h
          left; rfl
        · have hnreq : isRequestException e = false := by
            cases e <;> simp_all [isRuntimeError, isRequestException]
          simp [wrapRequestErrors, hnreq] at h
          subst h
          right; exact hnc
    | ok b =>
        rw [htb] at h
        simp [wrapRequestErrors] at h

/-- Witness for C2 (amended), exercising both failure classes: at the
302-without-Location transport the surfaced error is a cause-less
RuntimeError, and at the 404 transport the HTTPError escaping the try block
surfaces as the "Failed to fetch STEP content." wrapper carrying it as the
cause. -/
theorem fetch_failures_are_runtime_errors_witness :
    isRuntimeError (PyError.runtimeError
        "Redirect expected but \x27Location\x27 header is missing." none) = true
    ∧ (fetch_step_content "d" "w" "e" notFoundTransport "b").1
        = Except.error (PyError.runtimeError "Failed to fetch STEP content."
            (some (PyError.httpError 404)))
    ∧ (isExportFailureWrappingCause (PyError.runtimeError
          "Redirect expected but \x27Location\x27 header is missing." none) = true
       ∨ hasCause (PyError.runtimeError
          "Redirect expected but \x27Location\x27 header is missing." none) = false) := by
  obtain ⟨h1, h2, h3⟩ :=
    fetch_failures_are_runtime_errors noLocationTransport "d" "w" "e" "b"
  obtain ⟨g1, g2, g3⟩ :=
    fetch_failures_are_runtime_errors notFoundTransport "d" "w" "e" "b"
  exact ⟨h1 (PyError.runtimeError
      "Redirect expected but \x27Location\x27 header is missing." none) rfl,
    g2 (PyError.httpError 404) rfl rfl,
    h3 (PyError.runtimeError
      "Redirect expected but \x27Location\x27 header is missing." none) rfl⟩

/-- Counterexample for C2 as stated: with the 302-without-Location transport
the surfaced error is the missing-redirect RuntimeError, which is not the
"Failed to fetch STEP content." wrapper and wraps no underlying cause. -/
theorem fetch_missing_location_not_wrapped_counterexample :
    (fetch_step_content "d" "w" "e" noLocationTransport "b").1
      = Except.error (PyError.runtimeError
          "Redirect expected but \x27Location\x27 header is missing." none)
    ∧ isExportFailureWrappingCause (PyError.runtimeError
          "Redirect expected but \x27Location\x27 header is missing." none) = false
    ∧ hasCause (PyError.runtimeError
          "Redirect expected but \x27Location\x27 header is missing." none) = false :=
  ⟨rfl, rfl, rfl⟩

/-! ## Theorems about the mesh conversion pipeline -/

/-- The parse stage issues exactly one trimesh.load call on the STL bytes. -/
theorem create_2d_mesh_calls (env : MeshEnv) (stl_data : Bytes) :
    (create_2d_mesh env stl_data).2 = [ExtCall.trimeshLoad stl_data "stl"] := by
  rcases h : env.trimesh_load stl_data "stl" with e | m <;> simp [create_2d_mesh, h]

/-- The repair stage issues exactly one pymeshfix repair call. -/
theorem clean_mesh_calls (env : MeshEnv) (vertices : Vertices) (faces : Faces) :
    (clean_mesh env vertices faces).2
      = [ExtCall.meshfixRepair vertices faces true true false] := by
  rcases h : env.meshfix_repair vertices faces true true false with e | m <;>
    simp [clean_mesh, h]

/-- The tetrahedralization stage issues exactly one tetgen call, with the
absent option mapping replaced by the empty mapping. -/
theorem tetrahedralize_mesh_calls (env : MeshEnv) (vertices : Vertices)
    (faces : Faces) (tetgen_options : Option TetgenOptions) :
    (tetrahedralize_mesh env vertices faces tetgen_options).2
      = [ExtCall.tetgenTetrahedralize vertices faces (tetgen_options.getD [])] := by
  rcases h : env.tetgen_tetrahedralize vertices faces (tetgen_options.getD []) with e | m <;>
    simp [tetrahedralize_mesh, h]

/-- C5: stl_to_vtk equals the sequential composition of the four stage
functions, each stage output feeding the next stage input. -/
theorem stl_to_vtk_is_stage_composition (env : MeshEnv) (stl_data : Bytes)
    (output_path : String) (tetgen_options : Option TetgenOptions) :
    (stl_to_vtk env stl_data output_path tetgen_options).1
      = stl_to_vtk_composed_spec env stl_data output_path tetgen_options := by
  rcases h1 : create_2d_mesh env stl_data with ⟨e1 | ⟨v, f⟩, c1⟩
  · simp [stl_to_vtk, stl_to_vtk_composed_spec, h1, Except.bind]
  · rcases h2 : clean_mesh env v f with ⟨e2 | ⟨cv, cf⟩, c2⟩
    · simp [stl_to_vtk, stl_to_vtk_composed_spec, h1, h2, Except.bind]
    · rcases h3 : tetrahedralize_mesh env cv cf tetgen_options with ⟨e3 | ⟨n, el⟩, c3⟩
      · simp [stl_to_vtk, stl_to_vtk_composed_spec, h1, h2, h3, Except.bind]
      · simp [stl_to_vtk, stl_to_vtk_composed_spec, save_mesh_to_vtk,
          h1, h2, h3, Except.bind]

/-- C6: whichever stage of stl_to_vtk fails first, its error is returned to
the caller unmodified, no later stage issues any external call, and no
meshio write is issued when a stage before serialization fails. -/
theorem stl_to_vtk_error_propagation (env : MeshEnv) (stl_data : Bytes)
    (output_path : String) (tetgen_options : Option TetgenOptions) :
    (∀ e, (create_2d_mesh env stl_data).1 = Except.error e →
      stl_to_vtk env stl_data output_path tetgen_options
        = (Except.error e, [ExtCall.trimeshLoad stl_data "stl"])
      ∧ ∀ p m, ExtCall.meshioWrite p m
          ∉ (stl_to_vtk env stl_data output_path tetgen_options).2)
    ∧ (∀ v f e, (create_2d_mesh env stl_data).1 = Except.ok (v, f) →
        (clean_mesh env v f).1 = Except.error e →
      stl_to_vtk env stl_data output_path tetgen_options
        = (Except.error e, [ExtCall.trimeshLoad stl_data "stl",
            ExtCall.meshfixRepair v f true true false])
      ∧ ∀ p m, ExtCall.meshioWrite p m
          ∉ (stl_to_vtk env stl_data output_path tetgen_options).2)
    ∧ (∀ v f cv cf e, (create_2d_mesh env stl_data).1 = Except.ok (v, f) →
        (clean_mesh env v f).1 = Except.ok (cv, cf) →
        (tetrahedralize_mesh env cv cf tetgen_options).1 = Except.error e →
      stl_to_vtk env stl_data output_path tetgen_options
        = (Except.error e, [ExtCall.trimeshLoad stl_data "stl",
            ExtCall.meshfixRepair v f true true false,
            ExtCall.tetgenTetrahedralize cv cf (tetgen_options.getD [])])
      ∧ ∀ p m, ExtCall.meshioWrite p m
          ∉ (stl_to_vtk env stl_data output_path tetgen_options).2)
    ∧ (∀ v f cv cf n el e, (create_2d_mesh env stl_data).1 = Except.ok (v, f) →
        (clean_mesh env v f).1 = Except.ok (cv, cf) →
        (tetrahedralize_mesh env cv cf tetgen_options).1 = Except.ok (n, el) →
        (save_mesh_to_vtk env n el output_path).1 = Except.error e →
      stl_to_vtk env stl_data output_path tetgen_options
        = (Except.error e, [ExtCall.trimeshLoad stl_data "stl",
            ExtCall.meshfixRepair v f true true false,
            ExtCall.tetgenTetrahedralize cv cf (tetgen_options.getD []),
            ExtCall.meshioWrite output_path
              { points := n, cells := [("tetra", el)] }])) := by
  refine ⟨?_, ?_, ?_, ?_⟩
  · intro e h1
    have hp1 : create_2d_mesh env stl_data
        = (Except.error e, [ExtCall.trimeshLoad stl_data "stl"]) :=
      Prod.ext h1 (create_2d_mesh_calls env stl_data)
    have hmain : stl_to_vtk env stl_data output_path tetgen_options
        = (Except.error e, [ExtCall.trimeshLoad stl_data "stl"]) := by
      simp [stl_to_vtk, hp1]
    refine ⟨hmain, ?_⟩
    intro p m
    rw [hmain]
    simp
  · intro v f e h1 h2
    have hp1 : create_2d_mesh env stl_data
        = (Except.ok (v, f), [ExtCall.trimeshLoad stl_data "stl"]) :=
      Prod.ext h1 (create_2d_mesh_calls env stl_data)
    have hp2 : clean_mesh env v f
        = (Except.error e, [ExtCall.meshfixRepair v f true true false]) :=
      Prod.ext h2 (clean_mesh_calls env v f)
    have hmain : stl_to_vtk env stl_data output_path tetgen_options
        = (Except.error e, [ExtCall.trimeshLoad stl_data "stl",
            ExtCall.meshfixRepair v f true true false]) := by
      simp [stl_to_vtk, hp1, hp2]
    refine ⟨hmain, ?_⟩
    intro p m
    rw [hmain]
    simp
  · intro v f cv cf e h1 h2 h3
    have hp1 : create_2d_mesh env stl_data
        = (Except.ok (v, f), [ExtCall.trimeshLoad stl_data "stl"]) :=
      Prod.ext h1 (create_2d_mesh_calls env stl_data)
    have hp2 : clean_mesh env v f
        = (Except.ok (cv, cf), [ExtCall.meshfixRepair v f true true false]) :=
      Prod.ext h2 (clean_mesh_calls env v f)
    have hp3 : tetrahedralize_mesh env cv cf tetgen_options
        = (Except.error e,
            [ExtCall.tetgenTetrahedralize cv cf (tetgen_options.getD [])]) :=
      Prod.ext h3 (tetrahedralize_mesh_calls env cv cf tetgen_options)
    have hmain : stl_to_vtk env stl_data output_path tetgen_options
        = (Except.error e, [ExtCall.trimeshLoad stl_data "stl",
            ExtCall.meshfixRepair v f true true false,
            ExtCall.tetgenTetrahedralize cv cf (tetgen_options.getD [])]) := by
      simp [stl_to_vtk, hp1, hp2, hp3]
    refine ⟨hmain, ?_⟩
    intro p m
    rw [hmain]
    simp
  · intro v f cv cf n el e h1 h2 h3 h4
    have hp1 : create_2d_mesh env stl_data
        = (Except.ok (v, f), [ExtCall.trimeshLoad stl_data "stl"]) :=
      Prod.ext h1 (create_2d_mesh_calls env stl_data)
    have hp2 : clean_mesh env v f
        = (Except.ok (cv, cf), [ExtCall.meshfixRepair v f true true false]) :=
      Prod.ext h2 (clean_mesh_calls env v f)
    have hp3 : tetrahedralize_mesh env cv cf tetgen_options
        = (Except.ok (n, el),
            [ExtCall.tetgenTetrahedralize cv cf (tetgen_options.getD [])]) :=
      Prod.ext h3 (tetrahedralize_mesh_calls env cv cf tetgen_options)
    have h4' : env.meshio_write output_path { points := n, cells := [("tetra", el)] }
        = Except.error e := by
      simpa [save_mesh_to_vtk] using h4
    simp [stl_to_vtk, save_mesh_to_vtk, hp1, hp2, hp3, h4']

/-- Witness for C6: with the environment whose STL parser raises, the
pipeline returns that very error after only the load call, and issues no
meshio write. -/
theorem stl_to_vtk_error_propagation_witness :
    stl_to_vtk loadFailEnv [] "out.vtk" none
      = (Except.error (PyError.runtimeError "not an STL" none),
         [ExtCall.trimeshLoad [] "stl"])
    ∧ ExtCall.meshioWrite "out.vtk" { points := [], cells := [] }
        ∉ (stl_to_vtk loadFailEnv [] "out.vtk" none).2 := by
  have h := (stl_to_vtk_error_propagation loadFailEnv [] "out.vtk" none).1
    (PyError.runtimeError "not an STL" none) rfl
  exact ⟨h.1, h.2 "out.vtk" { points := [], cells := [] }⟩

/-- C8: clean_mesh invokes the external repair routine exactly once, with
joincomp enabled and remove_smallest_components disabled, and returns the
repaired vertices and faces (propagating a repair failure unchanged). -/
theorem clean_mesh_repair_config (env : MeshEnv) (vertices : Vertices)
    (faces : Faces) :
    (clean_mesh env vertices faces).2
      = [ExtCall.meshfixRepair vertices faces true true false]
    ∧ (∀ m, env.meshfix_repair vertices faces true true false = Except.ok m →
        (clean_mesh env vertices faces).1 = Except.ok (m.v, m.f))
    ∧ (∀ e, env.meshfix_repair vertices faces true true false = Except.error e →
        (clean_mesh env vertices faces).1 = Except.error e) := by
  refine ⟨clean_mesh_calls env vertices faces, ?_, ?_⟩
  · intro m hm
    simp [clean_mesh, hm]
  · intro e he
    simp [clean_mesh, he]

/-- Witness for C8: in the concrete environment whose repair routine
returns its input unchanged, clean_mesh on the empty mesh issues the
configured repair call and returns the repaired attributes. -/
theorem clean_mesh_repair_config_witness :
    (clean_mesh loadFailEnv [] []).2 = [ExtCall.meshfixRepair [] [] true true false]
    ∧ (clean_mesh loadFailEnv [] []).1 = Except.ok ([], []) := by
  obtain ⟨h1, h2, h3⟩ := clean_mesh_repair_config loadFailEnv [] []
  exact ⟨h1, h2 { v := [], f := [] } rfl⟩

/-- C9: tetrahedralize_mesh forwards a given option mapping verbatim to the
external tetgen routine, calls it with the empty mapping (hence the routine
defaults) when the mapping is absent, and returns the node and elem
attributes of the tetrahedralized result. -/
theorem tetrahedralize_mesh_forwards_options (env : MeshEnv)
    (vertices : Vertices) (faces : Faces) :
    (∀ opts, (tetrahedralize_mesh env vertices faces (some opts)).2
        = [ExtCall.tetgenTetrahedralize vertices faces opts])
    ∧ (tetrahedralize_mesh env vertices faces none).2
        = [ExtCall.tetgenTetrahedralize vertices faces []]
    ∧ (∀ o t, env.tetgen_tetrahedralize vertices faces (o.getD []) = Except.ok t →
        (tetrahedralize_mesh env vertices faces o).1 = Except.ok (t.node, t.elem)) := by
  refine ⟨?_, ?_, ?_⟩
  · intro opts
    rw [tetrahedralize_mesh_calls]
    simp
  · rw [tetrahedralize_mesh_calls]
    simp
  · intro o t ht
    simp [tetrahedralize_mesh, ht]

/-- Witness for C9: in the concrete environment, an explicit maxvolume
option is forwarded verbatim, the absent mapping produces the empty call,
and the result is the node and elem attributes. -/
theorem tetrahedralize_mesh_forwards_options_witness :
    (tetrahedralize_mesh loadFailEnv [] [] (some [("maxvolume", 1)])).2
      = [ExtCall.tetgenTetrahedralize [] [] [("maxvolume", 1)]]
    ∧ (tetrahedralize_mesh loadFailEnv [] [] none).2
      = [ExtCall.tetgenTetrahedralize [] [] []]
    ∧ (tetrahedralize_mesh loadFailEnv [] [] none).1 = Except.ok ([], []) := by
  obtain ⟨h1, h2, h3⟩ := tetrahedralize_mesh_forwards_options loadFailEnv [] []
  exact ⟨h1 [("maxvolume", 1)], h2, h3 none { node := [], elem := [] } rfl⟩

/-- C10: save_mesh_to_vtk writes, at the given path, a mesh whose points
are exactly the given nodes and whose single cell block is the given
4-tuples tagged tetra. -/
theorem save_mesh_to_vtk_writes_tetra_mesh (env : MeshEnv) (nodes : Nodes)
    (cells : Elems) (path : String) :
    save_mesh_to_vtk env nodes cells path
      = (env.meshio_write path { points := nodes, cells := [("tetra", cells)] },
         [ExtCall.meshioWrite path { points := nodes, cells := [("tetra", cells)] }]) :=
  rfl

end CAD2FEA
